import Mathlib

/-!
Verification development for the two MongoDB playground scripts of this
repository: a read query over the `btw_orders` collection whose projection
reshapes nested marketplace sub-documents (`order_lazada`, `order_shopee`,
`order_line_shopping`) into flattened sub-objects, and a lookup over the
`crm_customer_profiles` collection by a nested `orders.order_id` field with a
commented-out `deleteOne` helper.

Documents are modelled as association lists of BSON-like values; numbers are
modelled as exact integers.  The meaning of the projection document is
MongoDB's documented semantics: aggregation field-path resolution over arrays
(collecting, from the document elements that yield one, the value at the
remaining path), the `$first` array operator (`null` on a null-or-missing
operand, missing on an empty array, the head element otherwise, a dynamic
error on a non-array non-null operand), inclusion projection with `_id`
included by default, and computed embedded documents that omit the fields
whose expression resolves to missing.
-/

namespace Rfm

/-- BSON-like values stored in documents. -/
inductive Value where
  | null : Value
  | bool : Bool → Value
  | int : Int → Value
  | str : String → Value
  | arr : List Value → Value
  | doc : List (String × Value) → Value

/-- A document: an association list from field names to values. -/
abbrev Doc := List (String × Value)

/-- Aggregation field-path resolution.  Resolving `k :: rest` on a document
looks up `k` and continues on the value; on an array it collects, from the
document elements, the values the full remaining path resolves to (elements
on which the path is missing are skipped, non-document elements contribute
nothing); on any other value a non-empty path is missing (`none`). -/
def resolve (v : Value) : List String → Option Value
  | [] => some v
  | k :: rest =>
    match v with
    | .doc d => (d.lookup k).bind (fun w => resolve w rest)
    | .arr xs => some (.arr (xs.filterMap (fun x =>
        match x with
        | .doc d => (d.lookup k).bind (fun w => resolve w rest)
        | _ => none)))
    | _ => none

/-- Result of evaluating a projection expression: a dynamic error, a missing
value (field omitted from the output), or a value. -/
inductive EvalResult where
  | err : EvalResult
  | missing : EvalResult
  | val : Value → EvalResult

/-- The `$first` array operator: `null` when the operand resolves to null or
is missing, missing when it is an empty array, the head element of a
non-empty array, and a dynamic error on any other operand. -/
def firstOp : Option Value → EvalResult
  | none => .val .null
  | some .null => .val .null
  | some (.arr []) => .missing
  | some (.arr (x :: _)) => .val x
  | some _ => .err

/-- Assemble a computed embedded document from named expression results:
missing fields are omitted, and any dynamic error aborts the projection. -/
def collectFields : List (String × EvalResult) → Option Doc
  | [] => some []
  | (_, .err) :: _ => none
  | (_, .missing) :: rest => collectFields rest
  | (k, .val v) :: rest => (collectFields rest).map (fun tail => (k, v) :: tail)

/-- Build a document from a list of keys and a per-key optional value,
omitting the keys whose value is missing. -/
def keyedMap (g : String → Option Value) (ks : List String) : Doc :=
  ks.filterMap (fun k => (g k).map (fun v => (k, v)))

/-- The plain inclusion (`field : 1`) part of the `btw_orders` projection,
with `_id` included by default. -/
def inclusionKeys : List String :=
  ["_id", "provider_id", "shop_id", "channel_id", "member_id", "created_date",
   "modified_date", "shipping_zipcode", "order_id", "order_from", "firstname",
   "lastname", "email", "phone", "shipping_firstname", "shipping_lastname",
   "shipping_email", "shipping_phone", "shipping_address_1",
   "shipping_address_2", "shipping_subdistrict", "shipping_district",
   "shipping_province", "grand_total", "extern_member_id"]

/-- Passthrough of the included scalar fields: each listed field is copied
from the record when present and omitted otherwise. -/
def scalars (r : Doc) : Doc := keyedMap (fun k => r.lookup k) inclusionKeys

/-- The computed `lazada_info` embedded document:
`customer_first_name : ($first of $order_lazada.customer_first_name)` and
`customer_last_name : ($first of $order_lazada.customer_last_name)`. -/
def lazadaSub (r : Doc) : Option Doc :=
  collectFields
    [("customer_first_name",
        firstOp (resolve (.doc r) ["order_lazada", "customer_first_name"])),
     ("customer_last_name",
        firstOp (resolve (.doc r) ["order_lazada", "customer_last_name"]))]

/-- The computed `shopee_info` embedded document:
`shopee_user_id : ($first of $order_shopee.raw_body.buyer_user_id)` and
`shopee_user_name : ($first of $order_shopee.raw_body.buyer_username)`. -/
def shopeeSub (r : Doc) : Option Doc :=
  collectFields
    [("shopee_user_id",
        firstOp (resolve (.doc r) ["order_shopee", "raw_body", "buyer_user_id"])),
     ("shopee_user_name",
        firstOp (resolve (.doc r) ["order_shopee", "raw_body", "buyer_username"]))]

/-- The sub-field names copied into `line_shopping_info`, in source order. -/
def lineShoppingKeys : List String :=
  ["recipientName", "address", "province", "postalCode", "phoneNumber",
   "email", "district", "subDistrict"]

/-- The computed `line_shopping_info` embedded document: each listed field is
the plain path `$order_line_shopping.shipping_address.<field>`, omitted when
the path is missing. -/
def lineShoppingSub (r : Doc) : Doc :=
  keyedMap
    (fun k => resolve (.doc r) ["order_line_shopping", "shipping_address", k])
    lineShoppingKeys

/-- The whole `btw_orders` projection applied to one record: the included
scalar fields followed by the three computed sub-objects.  `none` models a
dynamic evaluation error (a `$first` operand that is neither an array nor
null nor missing). -/
def project (r : Doc) : Option Doc :=
  match lazadaSub r, shopeeSub r with
  | some lz, some sp =>
      some (scalars r ++
        [("lazada_info", Value.doc lz), ("shopee_info", Value.doc sp),
         ("line_shopping_info", Value.doc (lineShoppingSub r))])
  | _, _ => none

/-- Top-level field of the projected output. -/
def outLookup (r : Doc) (k : String) : Option Value :=
  (project r).bind (fun d => d.lookup k)

/-- Field `j` of the sub-document stored at top-level field `k` of the
projected output. -/
def outSub (r : Doc) (k j : String) : Option Value :=
  match outLookup r k with
  | some (.doc d) => d.lookup j
  | _ => none

/-- An optional nested sequence is well-formed when it is missing, null, or
an array (the shape the data model prescribes for `order_lazada` and
`order_shopee`). -/
def seqOk : Option Value → Bool
  | none => true
  | some .null => true
  | some (.arr _) => true
  | _ => false

/-- Well-formedness of a record: its two optional marketplace sequences are
missing, null, or arrays. -/
def wfb (r : Doc) : Bool :=
  seqOk (r.lookup "order_lazada") && seqOk (r.lookup "order_shopee")

/-- One call of the projector in a state-passing reading: the record handed
back to the caller together with the projection output.  The projection only
reads `r` (a `find` projection performs no write), so the record component
is `r` itself. -/
def projectCall (r : Doc) : Doc × Option Doc := (r, project r)

/-- The order id the `crm_customer_profiles` query filters on. -/
def orderIdTarget : Int := 6208981112233112233

/-- MongoDB equality match of a stored value against an integer query value:
the value is that integer, or an array containing it. -/
def matchesEqInt (t : Int) (v : Value) : Bool :=
  match v with
  | .int n => n == t
  | .arr xs => xs.any (fun x =>
      match x with
      | .int n => n == t
      | _ => false)
  | _ => false

/-- The `_id` the commented-out `deleteOne` helper targets. -/
def idTarget : String := "44f4b399-84ab-548f-b801-52ca177bf266"

/-- MongoDB equality match of a stored value against a string query value:
the value is that string, or an array containing it. -/
def matchesEqStr (t : String) (v : Value) : Bool :=
  match v with
  | .str s => s == t
  | .arr xs => xs.any (fun x =>
      match x with
      | .str s => s == t
      | _ => false)
  | _ => false

/-- Does a candidate value at path component `orders` carry an `order_id`
matching the target?  Only documents can. -/
def matchElemOrderId (x : Value) : Bool :=
  match x with
  | .doc s =>
    match s.lookup "order_id" with
    | some w => matchesEqInt orderIdTarget w
    | none => false
  | _ => false

/-- The query filter `orders.order_id : <target>`: the `orders` value itself
is a matching document, or it is an array one of whose elements matches. -/
def matchesOrdersOrderId (d : Doc) : Bool :=
  match d.lookup "orders" with
  | some v =>
      matchElemOrderId v ||
        (match v with
         | .arr xs => xs.any matchElemOrderId
         | _ => false)
  | none => false

/-- The `find` helper of the customer script: filter the collection by the
nested-field predicate; the projection document and the sort document are
both empty, so every field of each matching document is returned in the
collection's own order. -/
def find (coll : List Doc) : List Doc := coll.filter matchesOrdersOrderId

/-- The `deleteOne` helper: remove the first document whose `_id` matches
the target id. -/
def deleteOne (coll : List Doc) : List Doc :=
  coll.eraseP (fun d =>
    match d.lookup "_id" with
    | some v => matchesEqStr idTarget v
    | none => false)

/-- The top-level statements the customer script can execute. -/
inductive ScriptStmt where
  | findCall : ScriptStmt
  | deleteOneCall : ScriptStmt

/-- Effect of one statement on the `crm_customer_profiles` collection:
`find()` is a read and leaves it unchanged; `deleteOne()` removes the first
document with the target `_id`. -/
def stmtStep (s : ScriptStmt) (coll : List Doc) : List Doc :=
  match s with
  | .findCall => coll
  | .deleteOneCall => deleteOne coll

/-- The statements the script actually executes: only `find()`; the
`deleteOne()` invocation is commented out in the source. -/
def scriptBody : List ScriptStmt := [ScriptStmt.findCall]

/-- Run the customer script over an initial collection state. -/
def runScript (coll : List Doc) : List Doc :=
  scriptBody.foldl (fun c s => stmtStep s c) coll

/-- Specification-side element predicate: the element is a sub-document
whose `order_id` equals the target. -/
def specElemOrderId (x : Value) : Bool :=
  match x with
  | .doc s =>
      match s.lookup "order_id" with
      | some (.int n) => n == orderIdTarget
      | _ => false
  | _ => false

/-- Specification-side predicate for the customer lookup: some element of
the `orders` sequence has `order_id` equal to the target. -/
def hasTargetOrder (d : Doc) : Bool :=
  match d.lookup "orders" with
  | some (.arr xs) => xs.any specElemOrderId
  | _ => false

/-- Well-formedness of one `orders` element per the data model: a
sub-document carrying an integer `order_id`. -/
def wfElemOrderId (x : Value) : Bool :=
  match x with
  | .doc s =>
      match s.lookup "order_id" with
      | some (.int _) => true
      | _ => false
  | _ => false

/-- Well-formedness of a customer profile per the data model: `orders` is a
sequence of sub-documents, each carrying an integer `order_id`. -/
def customerWF (d : Doc) : Bool :=
  match d.lookup "orders" with
  | some (.arr xs) => xs.all wfElemOrderId
  | _ => false

/-- The record with every field absent. -/
def emptyRec : Doc := []

/-- The scenario record of the specification: `full_order_code`
`WN0303255`, a one-element `order_lazada`, an empty `order_shopee`, and a
null `order_line_shopping`. -/
def c4rec : Doc :=
  [("full_order_code", Value.str "WN0303255"),
   ("order_lazada", Value.arr
      [Value.doc [("customer_first_name", Value.str "A"),
                  ("customer_last_name", Value.str "B")]]),
   ("order_shopee", Value.arr []),
   ("order_line_shopping", Value.null)]

/-- A record carrying only an `_id`. -/
def idRec : Doc := [("_id", Value.int 1)]

/-- The output fields named in the projection spec: the listed passthrough
scalars plus the three computed sub-objects, without `_id`. -/
def specKeys : List String :=
  inclusionKeys.drop 1 ++ ["lazada_info", "shopee_info", "line_shopping_info"]

/-- A record whose first `order_lazada` element carries both customer names
and whose first `order_shopee` element carries a full `raw_body`. -/
def w1rec : Doc :=
  [("order_lazada", Value.arr
      [Value.doc [("customer_first_name", Value.str "A"),
                  ("customer_last_name", Value.str "B")]]),
   ("order_shopee", Value.arr
      [Value.doc [("raw_body", Value.doc [("buyer_user_id", Value.int 9),
                                          ("buyer_username", Value.str "u")])]])]

/-- A record with an `order_line_shopping` sub-document carrying a
`shipping_address`. -/
def w2rec : Doc :=
  [("order_line_shopping", Value.doc
      [("shipping_address", Value.doc [("address", Value.str "42 St")])])]

/-- A record whose first `order_lazada` element lacks the customer fields
(a later element has them) and whose first `order_shopee` element lacks
`raw_body` (a later element has it). -/
def skipRec : Doc :=
  [("order_lazada", Value.arr
      [Value.doc [],
       Value.doc [("customer_first_name", Value.str "C2"),
                  ("customer_last_name", Value.str "D2")]]),
   ("order_shopee", Value.arr
      [Value.doc [],
       Value.doc [("raw_body", Value.doc [("buyer_user_id", Value.int 77),
                                          ("buyer_username", Value.str "u2")])]])]

/-- A customer profile one of whose orders has the target `order_id`. -/
def custA : Doc :=
  [("_id", Value.str "a"), ("full_name", Value.str "x"),
   ("orders", Value.arr [Value.doc [("order_id", Value.int 5)],
                         Value.doc [("order_id", Value.int 6208981112233112233)]])]

/-- A customer profile none of whose orders has the target `order_id`. -/
def custB : Doc :=
  [("_id", Value.str "b"),
   ("orders", Value.arr [Value.doc [("order_id", Value.int 5)]])]

/-! ## Supporting lemmas -/

theorem lookup_append_right (k : String) (l1 l2 : List (String × Value))
    (h : List.lookup k l1 = none) :
    List.lookup k (l1 ++ l2) = List.lookup k l2 := by
  induction l1 with
  | nil => simp
  | cons p l ih =>
    obtain ⟨a, b⟩ := p
    cases hka : (k == a) with
    | true => simp [List.lookup, hka] at h
    | false =>
      simp only [List.lookup, hka] at h
      simp only [List.cons_append, List.lookup, hka]
      exact ih h

theorem keyedMap_lookup_not_mem (g : String → Option Value) (ks : List String)
    (k : String) (h : k ∉ ks) : List.lookup k (keyedMap g ks) = none := by
  induction ks with
  | nil => rfl
  | cons a ks ih =>
    have hak : (k == a) = false := by
      simp only [beq_eq_false_iff_ne, ne_eq]
      exact fun he => h (he ▸ List.mem_cons_self a ks)
    have hks : k ∉ ks := fun hm => h (List.mem_cons_of_mem a hm)
    cases hg : g a with
    | none =>
      simp only [keyedMap, List.filterMap_cons, hg]
      exact ih hks
    | some v =>
      simp only [keyedMap, List.filterMap_cons, hg, Option.map_some]
      simp only [List.lookup, hak]
      exact ih hks

theorem keyedMap_lookup_mem (g : String → Option Value) (ks : List String)
    (k : String) (hnd : ks.Nodup) (hm : k ∈ ks) :
    List.lookup k (keyedMap g ks) = g k := by
  induction ks with
  | nil => cases hm
  | cons a ks ih =>
    rw [List.nodup_cons] at hnd
    rcases List.mem_cons.mp hm with he | hmem
    · subst he
      cases hg : g k with
      | none =>
        simp only [keyedMap, List.filterMap_cons, hg]
        exact keyedMap_lookup_not_mem g ks k hnd.1
      | some v =>
        simp only [keyedMap, List.filterMap_cons, hg, Option.map_some]
        simp [List.lookup]
    · have hak : (k == a) = false := by
        simp only [beq_eq_false_iff_ne, ne_eq]
        exact fun he => hnd.1 (he ▸ hmem)
      cases hg : g a with
      | none =>
        simp only [keyedMap, List.filterMap_cons, hg]
        exact ih hnd.2 hmem
      | some v =>
        simp only [keyedMap, List.filterMap_cons, hg, Option.map_some]
        simp only [List.lookup, hak]
        exact ih hnd.2 hmem

theorem keyedMap_keys (g : String → Option Value) (ks : List String)
    (p : String × Value) (h : p ∈ keyedMap g ks) : p.1 ∈ ks := by
  unfold keyedMap at h
  rw [List.mem_filterMap] at h
  obtain ⟨a, ha, he⟩ := h
  cases hg : g a with
  | none => rw [hg] at he; cases he
  | some v => rw [hg] at he; cases he; exact ha

theorem resolve_doc (r : Doc) (k : String) (rest : List String) :
    resolve (.doc r) (k :: rest) = (r.lookup k).bind (fun w => resolve w rest) := rfl

theorem firstOp_arr_ne_err (l : List Value) : firstOp (some (Value.arr l)) ≠ .err := by
  cases l <;> simp [firstOp]

theorem collectFields_two (k1 k2 : String) (e1 e2 : EvalResult)
    (h1 : e1 ≠ .err) (h2 : e2 ≠ .err) :
    ∃ d, collectFields [(k1, e1), (k2, e2)] = some d := by
  cases e1 <;> cases e2 <;> simp_all [collectFields]

theorem firstOp_seqOk (v : Option Value) (rest : List String) (h : seqOk v = true) :
    firstOp (v.bind (fun w => resolve w rest)) ≠ .err := by
  cases v with
  | none => simp [firstOp]
  | some w =>
    cases w with
    | null => cases rest <;> simp [Option.bind, resolve, firstOp]
    | arr xs =>
      cases rest with
      | nil => simpa [Option.bind, resolve] using firstOp_arr_ne_err xs
      | cons k rest =>
        simp only [Option.bind, resolve]
        exact firstOp_arr_ne_err _
    | bool b => simp [seqOk] at h
    | int n => simp [seqOk] at h
    | str s => simp [seqOk] at h
    | doc d => simp [seqOk] at h

theorem lazadaSub_isSome (r : Doc) (h : seqOk (r.lookup "order_lazada") = true) :
    ∃ lz, lazadaSub r = some lz := by
  unfold lazadaSub
  simp only [resolve_doc]
  exact collectFields_two _ _ _ _ (firstOp_seqOk _ _ h) (firstOp_seqOk _ _ h)

theorem shopeeSub_isSome (r : Doc) (h : seqOk (r.lookup "order_shopee") = true) :
    ∃ sp, shopeeSub r = some sp := by
  unfold shopeeSub
  simp only [resolve_doc]
  exact collectFields_two _ _ _ _ (firstOp_seqOk _ _ h) (firstOp_seqOk _ _ h)

theorem project_eq (r : Doc) (lz sp : Doc)
    (h1 : lazadaSub r = some lz) (h2 : shopeeSub r = some sp) :
    project r = some (scalars r ++
      [("lazada_info", Value.doc lz), ("shopee_info", Value.doc sp),
       ("line_shopping_info", Value.doc (lineShoppingSub r))]) := by
  unfold project
  rw [h1, h2]

theorem scalars_lookup_none (r : Doc) (k : String) (h : k ∉ inclusionKeys) :
    List.lookup k (scalars r) = none :=
  keyedMap_lookup_not_mem _ _ _ h

theorem outLookup_info (r : Doc) (lz sp : Doc)
    (h1 : lazadaSub r = some lz) (h2 : shopeeSub r = some sp) :
    outLookup r "lazada_info" = some (.doc lz) ∧
    outLookup r "shopee_info" = some (.doc sp) ∧
    outLookup r "line_shopping_info" = some (.doc (lineShoppingSub r)) := by
  unfold outLookup
  rw [project_eq r lz sp h1 h2]
  simp only [Option.some_bind]
  refine ⟨?_, ?_, ?_⟩ <;>
    rw [lookup_append_right _ _ _ (scalars_lookup_none r _ (by decide))] <;>
    simp [List.lookup]

theorem lazadaSub_first (r : Doc) (d : Doc) (rest : List Value) (v w : Value)
    (hlz : r.lookup "order_lazada" = some (.arr (.doc d :: rest)))
    (hv : d.lookup "customer_first_name" = some v)
    (hw : d.lookup "customer_last_name" = some w) :
    lazadaSub r = some [("customer_first_name", v), ("customer_last_name", w)] := by
  unfold lazadaSub
  simp [resolve_doc, hlz, resolve, List.filterMap_cons, hv, hw, firstOp, collectFields]

theorem shopeeSub_first (r : Doc) (e : Doc) (rest : List Value) (rb : Doc) (u un : Value)
    (hsp : r.lookup "order_shopee" = some (.arr (.doc e :: rest)))
    (hrb : e.lookup "raw_body" = some (.doc rb))
    (hu : rb.lookup "buyer_user_id" = some u)
    (hun : rb.lookup "buyer_username" = some un) :
    shopeeSub r = some [("shopee_user_id", u), ("shopee_user_name", un)] := by
  unfold shopeeSub
  simp [resolve_doc, hsp, resolve, List.filterMap_cons, hrb, hu, hun, firstOp, collectFields]

theorem lazadaSub_missing (r : Doc) (h : r.lookup "order_lazada" = none) :
    lazadaSub r = some [("customer_first_name", .null), ("customer_last_name", .null)] := by
  unfold lazadaSub
  simp [resolve_doc, h, firstOp, collectFields]

theorem lazadaSub_null (r : Doc) (h : r.lookup "order_lazada" = some .null) :
    lazadaSub r = some [("customer_first_name", .null), ("customer_last_name", .null)] := by
  unfold lazadaSub
  simp [resolve_doc, h, resolve, firstOp, collectFields]

theorem lazadaSub_empty (r : Doc) (h : r.lookup "order_lazada" = some (.arr [])) :
    lazadaSub r = some [] := by
  unfold lazadaSub
  simp [resolve_doc, h, resolve, firstOp, collectFields]

theorem shopeeSub_missing (r : Doc) (h : r.lookup "order_shopee" = none) :
    shopeeSub r = some [("shopee_user_id", .null), ("shopee_user_name", .null)] := by
  unfold shopeeSub
  simp [resolve_doc, h, firstOp, collectFields]

theorem shopeeSub_null (r : Doc) (h : r.lookup "order_shopee" = some .null) :
    shopeeSub r = some [("shopee_user_id", .null), ("shopee_user_name", .null)] := by
  unfold shopeeSub
  simp [resolve_doc, h, resolve, firstOp, collectFields]

theorem shopeeSub_empty (r : Doc) (h : r.lookup "order_shopee" = some (.arr [])) :
    shopeeSub r = some [] := by
  unfold shopeeSub
  simp [resolve_doc, h, resolve, firstOp, collectFields]

theorem lineShoppingSub_absent (r : Doc) (h : r.lookup "order_line_shopping" = none) :
    lineShoppingSub r = [] := by
  unfold lineShoppingSub keyedMap
  simp [resolve_doc, h, lineShoppingKeys]

theorem lineShoppingSub_null (r : Doc) (h : r.lookup "order_line_shopping" = some .null) :
    lineShoppingSub r = [] := by
  unfold lineShoppingSub keyedMap
  simp [resolve_doc, h, resolve, lineShoppingKeys]

theorem lineShoppingSub_present (r : Doc) (d sa : Doc)
    (hols : r.lookup "order_line_shopping" = some (.doc d))
    (hsa : d.lookup "shipping_address" = some (.doc sa))
    (k : String) (hk : k ∈ lineShoppingKeys) :
    List.lookup k (lineShoppingSub r) = sa.lookup k := by
  unfold lineShoppingSub
  rw [keyedMap_lookup_mem _ _ _ (by decide) hk]
  rw [resolve_doc, hols]
  simp only [Option.some_bind]
  rw [resolve_doc, hsa]
  simp only [Option.some_bind]
  cases hl : sa.lookup k <;> simp [resolve_doc, hl, resolve]

theorem any_congr_mem {α : Type} (l : List α) (f g : α → Bool)
    (h : ∀ x ∈ l, f x = g x) : l.any f = l.any g := by
  induction l with
  | nil => rfl
  | cons a l ih =>
    simp only [List.any_cons]
    rw [h a (List.mem_cons_self a l), ih (fun x hx => h x (List.mem_cons_of_mem a hx))]

theorem elem_match_eq (x : Value) (hx : wfElemOrderId x = true) :
    matchElemOrderId x = specElemOrderId x := by
  cases x with
  | doc s =>
    simp only [wfElemOrderId] at hx
    simp only [matchElemOrderId, specElemOrderId]
    cases hoid : List.lookup "order_id" s with
    | none => rfl
    | some w =>
      rw [hoid] at hx
      cases w with
      | int n => rfl
      | null => exact Bool.noConfusion hx
      | bool b => exact Bool.noConfusion hx
      | str t => exact Bool.noConfusion hx
      | arr ys => exact Bool.noConfusion hx
      | doc t => exact Bool.noConfusion hx
  | null => rfl
  | bool b => rfl
  | int n => rfl
  | str s => rfl
  | arr ys => rfl

/-! ## The claims -/

/-- C1: for every well-formed record whose `order_lazada` sequence starts
with a sub-document carrying `customer_first_name` and
`customer_last_name`, the output's `lazada_info` fields equal those of
element 0; likewise, when `order_shopee` starts with a sub-document whose
`raw_body` carries `buyer_user_id` and `buyer_username`, the output's
`shopee_info` fields equal those of element 0. -/
theorem c1_first_element_extraction (r : Doc) (h : wfb r = true) :
    (∀ d rest v w, r.lookup "order_lazada" = some (.arr (.doc d :: rest)) →
      d.lookup "customer_first_name" = some v →
      d.lookup "customer_last_name" = some w →
      outSub r "lazada_info" "customer_first_name" = some v ∧
      outSub r "lazada_info" "customer_last_name" = some w) ∧
    (∀ e rest rb u un, r.lookup "order_shopee" = some (.arr (.doc e :: rest)) →
      e.lookup "raw_body" = some (.doc rb) →
      rb.lookup "buyer_user_id" = some u →
      rb.lookup "buyer_username" = some un →
      outSub r "shopee_info" "shopee_user_id" = some u ∧
      outSub r "shopee_info" "shopee_user_name" = some un) := by
  unfold wfb at h
  rw [Bool.and_eq_true] at h
  constructor
  · intro d rest v w hlz hv hw
    have hlzs := lazadaSub_first r d rest v w hlz hv hw
    obtain ⟨sp, hsp⟩ := shopeeSub_isSome r h.2
    have hout := (outLookup_info r _ sp hlzs hsp).1
    refine ⟨?_, ?_⟩ <;> unfold outSub <;> rw [hout] <;> simp [List.lookup]
  · intro e rest rb u un hspl hrb hu hun
    obtain ⟨lz, hlz⟩ := lazadaSub_isSome r h.1
    have hsps := shopeeSub_first r e rest rb u un hspl hrb hu hun
    have hout := (outLookup_info r lz _ hlz hsps).2.1
    refine ⟨?_, ?_⟩ <;> unfold outSub <;> rw [hout] <;> simp [List.lookup]

/-- C1 witness: the first-element extraction evaluated on a concrete
record. -/
theorem c1_witness :
    wfb w1rec = true ∧
    outSub w1rec "lazada_info" "customer_first_name" = some (Value.str "A") ∧
    outSub w1rec "shopee_info" "shopee_user_id" = some (Value.int 9) :=
  ⟨rfl,
   ((c1_first_element_extraction w1rec rfl).1 _ _ _ _ rfl rfl rfl).1,
   ((c1_first_element_extraction w1rec rfl).2 _ _ _ _ _ rfl rfl rfl rfl).1⟩

/-- C2 counterexample: on a record with `order_line_shopping` absent, the
output still contains `line_shopping_info` — as an empty document — so the
sub-object is not absent as claimed. -/
theorem c2_cex :
    List.lookup "order_line_shopping" emptyRec = none ∧
    outLookup emptyRec "line_shopping_info" = some (Value.doc []) ∧
    outLookup emptyRec "line_shopping_info" ≠ none := by
  refine ⟨rfl, rfl, ?_⟩
  intro h
  rw [show outLookup emptyRec "line_shopping_info" = some (Value.doc []) from rfl] at h
  exact Option.noConfusion h

/-- C2 (amended): when `order_line_shopping` is present with a
`shipping_address` sub-document, each copied sub-field of
`line_shopping_info` equals the corresponding `shipping_address` field;
when `order_line_shopping` is absent or null, `line_shopping_info` is
present in the output as an empty document (all its sub-fields omitted). -/
theorem c2_line_shopping_info (r : Doc) (h : wfb r = true) :
    (∀ d sa, r.lookup "order_line_shopping" = some (.doc d) →
      d.lookup "shipping_address" = some (.doc sa) →
      ∀ k, k ∈ lineShoppingKeys → ∀ v, sa.lookup k = some v →
      outSub r "line_shopping_info" k = some v) ∧
    ((r.lookup "order_line_shopping" = none ∨
      r.lookup "order_line_shopping" = some .null) →
      outLookup r "line_shopping_info" = some (Value.doc [])) := by
  unfold wfb at h
  rw [Bool.and_eq_true] at h
  obtain ⟨lz, hlz⟩ := lazadaSub_isSome r h.1
  obtain ⟨sp, hsp⟩ := shopeeSub_isSome r h.2
  have hout := (outLookup_info r lz sp hlz hsp).2.2
  constructor
  · intro d sa hols hsa k hk v hv
    unfold outSub
    rw [hout]
    show List.lookup k (lineShoppingSub r) = some v
    rw [lineShoppingSub_present r d sa hols hsa k hk, hv]
  · intro hcase
    rcases hcase with hc | hc
    · rw [hout, lineShoppingSub_absent r hc]
    · rw [hout, lineShoppingSub_null r hc]

/-- C2 witness: the sub-field copy evaluated on a concrete record. -/
theorem c2_witness :
    wfb w2rec = true ∧
    outSub w2rec "line_shopping_info" "address" = some (Value.str "42 St") :=
  ⟨rfl, (c2_line_shopping_info w2rec rfl).1 _ _ rfl rfl "address" (by decide) _ rfl⟩

/-- C3 counterexample: on a record with `order_lazada` missing, the output's
`lazada_info` is neither absent nor null — it is a document whose two
fields are null. -/
theorem c3_cex :
    List.lookup "order_lazada" emptyRec = none ∧
    outLookup emptyRec "lazada_info" =
      some (Value.doc [("customer_first_name", Value.null),
                       ("customer_last_name", Value.null)]) ∧
    outLookup emptyRec "lazada_info" ≠ none ∧
    outLookup emptyRec "lazada_info" ≠ some Value.null := by
  refine ⟨rfl, rfl, ?_, ?_⟩ <;>
    intro h <;>
    rw [show outLookup emptyRec "lazada_info" =
          some (Value.doc [("customer_first_name", Value.null),
                           ("customer_last_name", Value.null)]) from rfl] at h
  · exact Option.noConfusion h
  · exact Value.noConfusion (Option.some.inj h)

/-- C3 (amended): on every well-formed record the projection succeeds
(never raises); when an optional sequence is an empty array the
corresponding sub-object is an empty document, when it is missing or null
the sub-object is a document with null-valued fields, and when
`order_line_shopping` is absent or null `line_shopping_info` is an empty
document — the sub-fields, not the sub-objects, are absent or null. -/
theorem c3_total_on_missing_optional (r : Doc) (h : wfb r = true) :
    (∃ out, project r = some out) ∧
    (r.lookup "order_lazada" = some (.arr []) →
      outLookup r "lazada_info" = some (Value.doc [])) ∧
    ((r.lookup "order_lazada" = none ∨ r.lookup "order_lazada" = some .null) →
      outLookup r "lazada_info" =
        some (Value.doc [("customer_first_name", Value.null),
                         ("customer_last_name", Value.null)])) ∧
    (r.lookup "order_shopee" = some (.arr []) →
      outLookup r "shopee_info" = some (Value.doc [])) ∧
    ((r.lookup "order_shopee" = none ∨ r.lookup "order_shopee" = some .null) →
      outLookup r "shopee_info" =
        some (Value.doc [("shopee_user_id", Value.null),
                         ("shopee_user_name", Value.null)])) ∧
    ((r.lookup "order_line_shopping" = none ∨
      r.lookup "order_line_shopping" = some .null) →
      outLookup r "line_shopping_info" = some (Value.doc [])) := by
  unfold wfb at h
  rw [Bool.and_eq_true] at h
  obtain ⟨lz, hlz⟩ := lazadaSub_isSome r h.1
  obtain ⟨sp, hsp⟩ := shopeeSub_isSome r h.2
  refine ⟨⟨_, project_eq r lz sp hlz hsp⟩, ?_, ?_, ?_, ?_, ?_⟩
  · intro hc
    exact (outLookup_info r [] sp (lazadaSub_empty r hc) hsp).1
  · intro hc
    rcases hc with hc | hc
    · exact (outLookup_info r _ sp (lazadaSub_missing r hc) hsp).1
    · exact (outLookup_info r _ sp (lazadaSub_null r hc) hsp).1
  · intro hc
    exact (outLookup_info r lz [] hlz (shopeeSub_empty r hc)).2.1
  · intro hc
    rcases hc with hc | hc
    · exact (outLookup_info r lz _ hlz (shopeeSub_missing r hc)).2.1
    · exact (outLookup_info r lz _ hlz (shopeeSub_null r hc)).2.1
  · intro hc
    have hout := (outLookup_info r lz sp hlz hsp).2.2
    rcases hc with hc | hc
    · rw [hout, lineShoppingSub_absent r hc]
    · rw [hout, lineShoppingSub_null r hc]

/-- C3 witness: totality evaluated on the record with every optional part
missing. -/
theorem c3_witness : wfb emptyRec = true ∧ ∃ out, project emptyRec = some out :=
  ⟨rfl, (c3_total_on_missing_optional emptyRec rfl).1⟩

/-- C4 counterexample: on the scenario record, `shopee_info` and
`line_shopping_info` are empty documents in the output, not null as the
scenario claims. -/
theorem c4_cex :
    outLookup c4rec "shopee_info" = some (Value.doc []) ∧
    outLookup c4rec "shopee_info" ≠ some Value.null ∧
    outLookup c4rec "line_shopping_info" = some (Value.doc []) ∧
    outLookup c4rec "line_shopping_info" ≠ some Value.null := by
  refine ⟨rfl, ?_, rfl, ?_⟩ <;> intro h
  · rw [show outLookup c4rec "shopee_info" = some (Value.doc []) from rfl] at h
    exact Value.noConfusion (Option.some.inj h)
  · rw [show outLookup c4rec "line_shopping_info" = some (Value.doc []) from rfl] at h
    exact Value.noConfusion (Option.some.inj h)

/-- C4 (amended): on the scenario record the projection outputs exactly
`lazada_info` with the two customer names, an empty `shopee_info` document
and an empty `line_shopping_info` document; no passthrough scalar appears
because `full_order_code` is not among the projected fields. -/
theorem c4_scenario :
    project c4rec =
      some [("lazada_info",
               Value.doc [("customer_first_name", Value.str "A"),
                          ("customer_last_name", Value.str "B")]),
            ("shopee_info", Value.doc []),
            ("line_shopping_info", Value.doc [])] := rfl

/-- C5 counterexample: a record carrying an `_id` yields an output
containing `_id`, a field that is not among the output fields named in the
projection spec. -/
theorem c5_cex :
    outLookup idRec "_id" = some (Value.int 1) ∧ "_id" ∉ specKeys :=
  ⟨rfl, by decide⟩

/-- C5 (amended): every field of the projected output is either one of the
output fields named in the projection spec or `_id`, which MongoDB
includes by default because the projection does not exclude it. -/
theorem c5_output_keys (r : Doc) (out : Doc) (h : project r = some out) :
    ∀ p ∈ out, p.1 ∈ "_id" :: specKeys := by
  unfold project at h
  cases hlz : lazadaSub r with
  | none => rw [hlz] at h; cases h
  | some lz =>
    cases hsp : shopeeSub r with
    | none => rw [hlz, hsp] at h; cases h
    | some sp =>
      rw [hlz, hsp] at h
      have hout := Option.some.inj h
      subst hout
      intro p hp
      rw [List.mem_append] at hp
      rcases hp with hp | hp
      · have hmem := keyedMap_keys _ _ _ hp
        have hsub : ∀ x ∈ inclusionKeys, x ∈ "_id" :: specKeys := by decide
        exact hsub _ hmem
      · simp only [List.mem_cons, List.not_mem_nil, or_false] at hp
        rcases hp with rfl | rfl | rfl
        · show "lazada_info" ∈ "_id" :: specKeys
          decide
        · show "shopee_info" ∈ "_id" :: specKeys
          decide
        · show "line_shopping_info" ∈ "_id" :: specKeys
          decide

/-- C5 witness: the key-set bound evaluated on a concrete record and output
field. -/
theorem c5_witness : ("_id", Value.int 1).1 ∈ "_id" :: specKeys :=
  c5_output_keys idRec _ rfl ("_id", Value.int 1) (List.mem_cons_self _ _)

/-- C6: the projection is deterministic — invoking it again on the record
handed back by a previous call yields the same output, and the call's
output is exactly `project` of the input. -/
theorem c6_deterministic (r : Doc) :
    project ((projectCall r).1) = project r ∧ (projectCall r).2 = project r :=
  ⟨rfl, rfl⟩

/-- C7: the projector never mutates the record — in the state-passing
reading of one call, the record handed back is the input record itself. -/
theorem c7_no_mutation (r : Doc) : (projectCall r).1 = r := rfl

/-- C8: on collections of well-formed customer profiles, `find` returns
exactly the documents one of whose `orders` elements has `order_id` equal
to the target, each document kept whole (the filter returns the original
documents, with no projection applied). -/
theorem c8_find_nested_filter (coll : List Doc)
    (h : ∀ d ∈ coll, customerWF d = true) :
    find coll = coll.filter hasTargetOrder := by
  unfold find
  apply List.filter_congr
  intro d hd
  have hwf := h d hd
  unfold customerWF at hwf
  unfold matchesOrdersOrderId hasTargetOrder
  cases ho : d.lookup "orders" with
  | none => rfl
  | some v =>
    rw [ho] at hwf
    cases v with
    | arr xs =>
      simp only [matchElemOrderId, Bool.false_or]
      rw [List.all_eq_true] at hwf
      exact any_congr_mem xs _ _ (fun x hx => elem_match_eq x (hwf x hx))
    | null => exact Bool.noConfusion hwf
    | bool b => exact Bool.noConfusion hwf
    | int n => exact Bool.noConfusion hwf
    | str s => exact Bool.noConfusion hwf
    | doc s => exact Bool.noConfusion hwf

/-- C8 witness: the lookup evaluated on a concrete two-document
collection. -/
theorem c8_witness :
    (∀ d ∈ [custA, custB], customerWF d = true) ∧
    find [custA, custB] = [custA, custB].filter hasTargetOrder :=
  ⟨by decide, c8_find_nested_filter [custA, custB] (by decide)⟩

/-- C9: `$first` over the path expression collects field values from the
elements that have them, so on a record whose element 0 lacks the field
while a later element has it, the output carries the later element's value
rather than being absent — for both `lazada_info` fields and both
`shopee_info` fields. -/
theorem c9_first_skips_missing :
    List.lookup "order_lazada" skipRec =
      some (Value.arr [Value.doc [],
        Value.doc [("customer_first_name", Value.str "C2"),
                   ("customer_last_name", Value.str "D2")]]) ∧
    outSub skipRec "lazada_info" "customer_first_name" = some (Value.str "C2") ∧
    outSub skipRec "lazada_info" "customer_last_name" = some (Value.str "D2") ∧
    outSub skipRec "shopee_info" "shopee_user_id" = some (Value.int 77) ∧
    outSub skipRec "shopee_info" "shopee_user_name" = some (Value.str "u2") :=
  ⟨rfl, rfl, rfl, rfl, rfl⟩

/-- C10: the customer script only executes the read `find()` — the
`deleteOne()` call is commented out — so the `crm_customer_profiles`
collection is unchanged from every initial state. -/
theorem c10_collection_unchanged (coll : List Doc) : runScript coll = coll := rfl

end Rfm
